import Mathlib

/-
  Shallow embedding of the mayastor nexus data path and segment map.

  Sources embedded here:
  - io-engine/src/bdev/nexus/nexus_io.rs   (NexusBio state machine)
  - io-engine/src/core/segment_map.rs      (SegmentMap)

  Effectful calls (logical completion, device fault, retire enqueue,
  disconnection, self-shutdown requests) are reified as an `Action` trace
  returned alongside the updated per-IO context.
-/

namespace Mayastor

/-- Generic NVMe status codes distinguished by the nexus data path
(`GenericStatusCode` in the source; the variants the nexus matches on,
plus a catch-all). -/
inductive GenericStatusCode where
  | InvalidOpcode
  | ReservationConflict
  | AbortedSubmissionQueueDeleted
  | MediaCompareFailure
  | OtherGeneric
  deriving DecidableEq, Repr

/-- NVMe status as consumed by the nexus (`NvmeStatus`); the nexus only
discriminates the `Generic` class. -/
inductive NvmeStatus where
  | Generic (code : GenericStatusCode)
  | OtherNvme
  deriving DecidableEq, Repr

/-- Logical-volume failure (`LvolFailure`). -/
inductive LvolFailure where
  | NoSpace
  deriving DecidableEq, Repr

/-- Direction tag attached to an I/O submission failure
(`IoSubmissionFailure`). -/
inductive IoSubmissionFailure where
  | Read
  | Write
  deriving DecidableEq, Repr

/-- Completion status delivered by a child block device
(`IoCompletionStatus`). -/
inductive IoCompletionStatus where
  | Success
  | NvmeError (s : NvmeStatus)
  | LvolError (f : LvolFailure)
  | IoSubmissionError (f : IoSubmissionFailure)
  deriving DecidableEq, Repr

/-- Intermediate status of a logical IO (`IoStatus`). -/
inductive IoStatus where
  | Pending
  | Success
  | Failed
  deriving DecidableEq, Repr

/-- IO types dispatched by `NexusBio::submit_request` (`IoType`). -/
inductive IoType where
  | Read
  | Write
  | WriteZeros
  | Unmap
  | Reset
  | Flush
  | NvmeAdmin
  | OtherType
  deriving DecidableEq, Repr

/-- Reason recorded when a child device is faulted (`FaultReason` variants
produced by `NexusBio::fault_device`). -/
inductive FaultReason where
  | IoError
  | NoSpace
  deriving DecidableEq, Repr

/-- Errors surfaced by child submission calls (`CoreError` variants used by
the nexus IO path). -/
inductive CoreError where
  | NoDevicesAvailable
  | ReadDispatch (errno : Nat)
  | WriteDispatch (errno : Nat)
  | NotSupported (errno : Nat)
  deriving DecidableEq, Repr

/-- Per-IO context embedded in each nexus IO (`NioCtx`): the in-flight child
counter, the intermediate status, and the sticky failure latch. -/
structure NioCtx where
  in_flight : Nat
  status : IoStatus
  must_fail : Bool
  deriving DecidableEq, Repr

/-- Context of a freshly constructed `NexusBio` (`NexusBio::new` resets the
counter, the status and the latch). -/
def new_ctx : NioCtx :=
  { in_flight := 0, status := IoStatus.Pending, must_fail := false }

/-- Reified side effects of the nexus IO path. `complSuccess` is `self.ok()`,
`complFailure` is `self.fail()`, `resubmit` is `self.clone().submit_request()`,
`faultCalled` is the call to `NexusBio::fault_device`, `childFaulted` and
`retireEnqueued` are the channel-level fault bookkeeping, `disconnected` is
`NexusChannel::disconnect_device`, and `selfShutdownRequested` is the call to
`NexusBio::try_self_shutdown_nexus`. -/
inductive Action where
  | complSuccess
  | complFailure
  | resubmit
  | faultCalled (device : String) (io_status : IoCompletionStatus)
  | childFaulted (device : String) (reason : FaultReason)
  | retireEnqueued (device : String)
  | disconnected (device : String)
  | selfShutdownRequested
  deriving DecidableEq, Repr

/-- Retry this IO when all other IOs have completed
(`NexusBio::retry_checked`). -/
def retry_checked (c : NioCtx) : NioCtx × List Action :=
  if c.in_flight = 0 then (c, [Action.resubmit]) else (c, [])

/-- Complete the IO as successful once all child IOs are accounted for
(`NexusBio::ok_checked`). -/
def ok_checked (c : NioCtx) : NioCtx × List Action :=
  if c.in_flight = 0 then
    if c.must_fail then retry_checked c
    else (c, [Action.complSuccess])
  else (c, [])

/-- Complete the IO as failed once all child IOs are accounted for
(`NexusBio::fail_checked`). -/
def fail_checked (c : NioCtx) : NioCtx × List Action :=
  if c.in_flight = 0 then (c, [Action.complFailure]) else (c, [])

/-- Map a completion status to the recorded fault reason (the `match` inside
`NexusBio::fault_device`). -/
def fault_reason_of (s : IoCompletionStatus) : FaultReason :=
  match s with
  | IoCompletionStatus.LvolError LvolFailure.NoSpace => FaultReason.NoSpace
  | _ => FaultReason.IoError

/-- Modelled from the spec: `NexusChannel::fault_device` is not under the
provided sources; per the spec it updates the child role to Faulted with the
given reason and ensures exactly one RetireDevice command is enqueued for
the device. -/
def channel_fault_device (device : String) (reason : FaultReason) :
    List Action :=
  [Action.childFaulted device reason, Action.retireEnqueued device]

/-- Fault the device by name with the given I/O error and schedule it to be
retired (`NexusBio::fault_device`). -/
def fault_device (device : String) (io_status : IoCompletionStatus) :
    List Action :=
  Action.faultCalled device io_status ::
    channel_fault_device device (fault_reason_of io_status)

/-- Failure handling for a child completion error
(`NexusBio::handle_failure`): invalid opcode is ignored, a reservation
conflict requests nexus self-shutdown without faulting the replica, an
aborted submission queue faults the device then re-runs the success check
(which resubmits under the latch), and every other failure faults the
device; all non-returning paths end in `fail_checked`. -/
def handle_failure (child : String) (status : IoCompletionStatus)
    (c : NioCtx) : NioCtx × List Action :=
  if status =
      IoCompletionStatus.NvmeError
        (NvmeStatus.Generic GenericStatusCode.InvalidOpcode) then
    (c, [])
  else if status =
      IoCompletionStatus.NvmeError
        (NvmeStatus.Generic GenericStatusCode.ReservationConflict) then
    let r := fail_checked c
    (r.1, Action.selfShutdownRequested :: r.2)
  else
    let facts := fault_device child status
    if status =
        IoCompletionStatus.NvmeError
          (NvmeStatus.Generic
            GenericStatusCode.AbortedSubmissionQueueDeleted) then
      let r := ok_checked c
      (r.1, facts ++ r.2)
    else
      let r := fail_checked c
      (r.1, facts ++ r.2)

/-- Completion handler for the nexus when a child IO completes
(`NexusBio::complete`): decrement the in-flight counter; on success run the
success check, on failure latch the failure and run `handle_failure`. -/
def complete (child : String) (status : IoCompletionStatus)
    (c : NioCtx) : NioCtx × List Action :=
  let c1 : NioCtx := { c with in_flight := c.in_flight - 1 }
  if status = IoCompletionStatus.Success then
    ok_checked c1
  else
    let c2 : NioCtx :=
      { c1 with status := IoStatus.Failed, must_fail := true }
    handle_failure child status c2

/-- A reader handle in the per-core channel, together with the outcome the
underlying device would give this submission: `none` means the submission is
accepted, `some e` means `readv_blocks` returns the error `e`. -/
structure Reader where
  name : String
  submit : Option CoreError
  deriving DecidableEq, Repr

/-- A writer handle in the per-core channel, together with the outcome the
underlying device would give this submission: `none` means the submission is
accepted, `some e` means the child submission call returns the error `e`. -/
structure Writer where
  name : String
  submit : Option CoreError
  deriving DecidableEq, Repr

/-- Per-core channel state the IO path reads: the reader vector with the
last-selected index, and the writer vector. -/
structure NexusChannel where
  readers : List Reader
  prev_reader_idx : Nat
  writers : List Writer
  deriving DecidableEq, Repr

/-- Modelled from the spec: `NexusChannel::select_reader` is not under the
provided sources; per the spec it returns a handle chosen by round-robin
across the readers, starting with the last-selected reader index plus one
modulo the reader count, and returns none when the reader vector is empty. -/
def select_reader (ch : NexusChannel) : Option (Reader × NexusChannel) :=
  if h : 0 < ch.readers.length then
    let i := (ch.prev_reader_idx + 1) % ch.readers.length
    some (ch.readers.get ⟨i, Nat.mod_lt _ h⟩,
      { ch with prev_reader_idx := i })
  else
    none

/-- Modelled from the spec: `NexusChannel::for_each_writer` is not under the
provided sources; per the spec it invokes the submission on every writer,
stops at the first error, and reports the offending device name; the number
of writers that accepted the IO before the failure is exposed (here as the
first component, mirroring the `inflight` counter of `submit_all`). -/
def for_each_writer : List Writer → Nat × Option (String × CoreError)
  | [] => (0, none)
  | w :: ws =>
    match w.submit with
    | some e => (0, some (w.name, e))
    | none =>
      let r := for_each_writer ws
      (r.1 + 1, r.2)

/-- Modelled from the spec: `NexusChannel::disconnect_device` is not under
the provided sources; per the spec it removes all handles matching a device
name from both vectors, idempotently. -/
def disconnect_device (ch : NexusChannel) (device : String) : NexusChannel :=
  { ch with
    readers := ch.readers.filter (fun r => r.name ≠ device),
    writers := ch.writers.filter (fun w => w.name ≠ device) }

/-- Submit the IO to all underlying writers (`NexusBio::submit_all`):
iterate the writers stopping at the first submission error; on error latch
`must_fail`, disconnect the failing device and fault it with an
`IoSubmissionError(Read)` status; on partial submission set the in-flight
counter and tentatively mark success, then run the success check; with no
successful submission run the failure check. -/
def submit_all (ch : NexusChannel) (c : NioCtx) :
    NexusChannel × NioCtx × List Action × Option CoreError :=
  let fw := for_each_writer ch.writers
  let inflight := fw.1
  match fw.2 with
  | some de =>
    let c1 : NioCtx := { c with must_fail := true }
    let ch1 := disconnect_device ch de.1
    let a1 := Action.disconnected de.1 ::
      fault_device de.1
        (IoCompletionStatus.IoSubmissionError IoSubmissionFailure.Read)
    if inflight ≠ 0 then
      let c2 : NioCtx :=
        { c1 with in_flight := inflight, status := IoStatus.Success }
      let r := ok_checked c2
      (ch1, r.1, a1 ++ r.2, some de.2)
    else
      let r := fail_checked c1
      (ch1, r.1, a1 ++ r.2, some de.2)
  | none =>
    if inflight ≠ 0 then
      let c2 : NioCtx :=
        { c with in_flight := inflight, status := IoStatus.Success }
      let r := ok_checked c2
      (ch, r.1, r.2, none)
    else
      let r := fail_checked c
      (ch, r.1, r.2, none)

/-- Submit a read to the next available replica (`NexusBio::__do_readv_one`):
select a reader round-robin; with no reader return `NoDevicesAvailable`; on
a submission error fault the chosen device with an
`IoSubmissionError(Write)` status and propagate the error; on success set
the in-flight counter to one. -/
def do_readv_one (ch : NexusChannel) (c : NioCtx) :
    NexusChannel × NioCtx × List Action × Option CoreError :=
  match select_reader ch with
  | none => (ch, c, [], some CoreError.NoDevicesAvailable)
  | some rch =>
    match rch.1.submit with
    | some e =>
      (rch.2, c,
        fault_device rch.1.name
          (IoCompletionStatus.IoSubmissionError IoSubmissionFailure.Write),
        some e)
    | none => (rch.2, { c with in_flight := 1 }, [], none)

/-- Resubmission loop of `NexusBio::do_readv`: retry `__do_readv_one`,
decrementing the working reader counter on each failure, until a submission
succeeds or the counter reaches zero. -/
def readv_retry_loop : Nat → NexusChannel → NioCtx →
    NexusChannel × NioCtx × List Action × Option CoreError
  | 0, ch, c => do_readv_one ch c
  | 1, ch, c => do_readv_one ch c
  | Nat.succ (Nat.succ m), ch, c =>
    match do_readv_one ch c with
    | (ch1, c1, a1, none) => (ch1, c1, a1, none)
    | (ch1, c1, a1, some _) =>
      let r := readv_retry_loop (Nat.succ m) ch1 c1
      (r.1, r.2.1, a1 ++ r.2.2.1, r.2.2.2)

/-- Submit a read with transparent failover (`NexusBio::do_readv`): with no
devices available fail the logical IO immediately; on another submission
error, if at most one reader remains fail, otherwise seed a working counter
with the current reader count, account the failed reader, and loop over the
next readers; fail the logical IO when the loop exhausts the counter. -/
def do_readv (ch : NexusChannel) (c : NioCtx) :
    NexusChannel × NioCtx × List Action × Option CoreError :=
  match do_readv_one ch c with
  | (ch1, c1, a1, none) => (ch1, c1, a1, none)
  | (ch1, c1, a1, some CoreError.NoDevicesAvailable) =>
    (ch1, c1, a1 ++ [Action.complFailure], some CoreError.NoDevicesAvailable)
  | (ch1, c1, a1, some e) =>
    let num_readers := ch1.readers.length
    if num_readers ≤ 1 then
      (ch1, c1, a1 ++ [Action.complFailure], some e)
    else
      match readv_retry_loop (num_readers - 1) ch1 c1 with
      | (ch2, c2, a2, none) => (ch2, c2, a1 ++ a2, none)
      | (ch2, c2, a2, some e2) =>
        (ch2, c2, a1 ++ a2 ++ [Action.complFailure], some e2)

/-- Dispatch of `NexusBio::submit_request` by IO type: reads go through the
failover read path, write-class IOs fan out to all writers, flush completes
immediately with success, NVMe admin and unknown opcodes fail. -/
def submit_request (t : IoType) (ch : NexusChannel) (c : NioCtx) :
    NexusChannel × NioCtx × List Action × Option CoreError :=
  match t with
  | IoType.Read => do_readv ch c
  | IoType.Write => submit_all ch c
  | IoType.WriteZeros => submit_all ch c
  | IoType.Reset => submit_all ch c
  | IoType.Unmap => submit_all ch c
  | IoType.Flush => (ch, c, [Action.complSuccess], none)
  | IoType.NvmeAdmin =>
    (ch, c, [Action.complFailure], some (CoreError.NotSupported 22))
  | IoType.OtherType =>
    (ch, c, [Action.complFailure], some (CoreError.NotSupported 95))

/-- Linearised compare-and-set on the per-nexus `shutdown_requested` flag:
`compare_exchange(false, true)` succeeds exactly when the flag is still
false, and always leaves the flag true afterwards. The first component is
the new flag value, the second tells whether the exchange succeeded. -/
def shutdown_cas (flag : Bool) : Bool × Bool :=
  if flag = false then (true, true) else (flag, false)

/-- Initiate shutdown of the nexus (`NexusBio::try_self_shutdown_nexus`):
the shutdown future is sent to the master reactor only when the
compare-and-set on `shutdown_requested` transitions false to true. The
action `selfShutdownRequested` here stands for the spawned shutdown task. -/
def try_self_shutdown_nexus (flag : Bool) : Bool × List Action :=
  let r := shutdown_cas flag
  if r.2 then (r.1, [Action.selfShutdownRequested]) else (r.1, [])

/-- A linearised sequence of `try_self_shutdown_nexus` invocations against
one nexus flag, collecting the spawned shutdown tasks. -/
def run_shutdown_attempts : Nat → Bool → Bool × List Action
  | 0, flag => (flag, [])
  | Nat.succ n, flag =>
    let r := try_self_shutdown_nexus flag
    let rest := run_shutdown_attempts n r.1
    (rest.1, r.2 ++ rest.2)

/-- Immutable fields of one logical IO used when forming child submissions:
the logical block offset, the block count, and the data-entry offset of the
nexus (`NexusBio::offset`, `NexusBio::num_blocks`,
`NexusBio::data_ent_offset`). -/
structure BioDesc where
  offset : Nat
  num_blocks : Nat
  data_ent_offset : Nat
  deriving DecidableEq, Repr

/-- A child IO request as issued to one replica handle. -/
structure ChildReq where
  req_type : IoType
  offset_blocks : Nat
  num_blocks : Nat
  deriving DecidableEq, Repr

/-- Child read submission (`NexusBio::submit_read`): `readv_blocks` at the
logical offset shifted by `data_ent_offset`. -/
def submit_read (b : BioDesc) : ChildReq :=
  { req_type := IoType.Read,
    offset_blocks := b.offset + b.data_ent_offset,
    num_blocks := b.num_blocks }

/-- Child write submission (`NexusBio::submit_write`): `writev_blocks` at
the logical offset shifted by `data_ent_offset`. -/
def submit_write (b : BioDesc) : ChildReq :=
  { req_type := IoType.Write,
    offset_blocks := b.offset + b.data_ent_offset,
    num_blocks := b.num_blocks }

/-- Child unmap submission (`NexusBio::submit_unmap`): `unmap_blocks` at the
logical offset shifted by `data_ent_offset`. -/
def submit_unmap (b : BioDesc) : ChildReq :=
  { req_type := IoType.Unmap,
    offset_blocks := b.offset + b.data_ent_offset,
    num_blocks := b.num_blocks }

/-- Child write-zeroes submission (`NexusBio::submit_write_zeroes`):
`write_zeroes` at the logical offset shifted by `data_ent_offset`. -/
def submit_write_zeroes (b : BioDesc) : ChildReq :=
  { req_type := IoType.WriteZeros,
    offset_blocks := b.offset + b.data_ent_offset,
    num_blocks := b.num_blocks }

/-- Rebuild segment map (`SegmentMap`): a bit vector over the segments of a
device, with the geometry fields carried alongside. -/
structure SegmentMap where
  segments : List Bool
  num_segments : Nat
  num_blocks : Nat
  block_len : Nat
  segment_size : Nat
  deriving DecidableEq, Repr

/-- Construct a segment map (`SegmentMap::new`): the segment count is the
byte size divided by the segment size rounded up, and the bit vector is
grown to that length with all bits clear. -/
def SegmentMap.new (num_blocks block_len segment_size : Nat) : SegmentMap :=
  let num_segments := (num_blocks * block_len + segment_size - 1) /
    segment_size
  { segments := List.replicate num_segments false,
    num_segments := num_segments,
    num_blocks := num_blocks,
    block_len := block_len,
    segment_size := segment_size }

/-- Index of the segment holding a logical block (`SegmentMap::lbn_to_seg`). -/
def SegmentMap.lbn_to_seg (m : SegmentMap) (lbn : Nat) : Nat :=
  lbn * m.block_len / m.segment_size

/-- Set one bit of the bit vector; `none` models the out-of-range panic of
`BitVec::set`. -/
def bit_set (v : List Bool) (i : Nat) (b : Bool) : Option (List Bool) :=
  if i < v.length then some (v.set i b) else none

/-- Set `cnt` consecutive bits starting at `lo` (the `for` loop of
`SegmentMap::set`); `none` models an out-of-range panic. -/
def bit_set_range (v : List Bool) (lo cnt : Nat) (b : Bool) :
    Option (List Bool) :=
  match cnt with
  | 0 => some v
  | Nat.succ n =>
    match bit_set v lo b with
    | none => none
    | some v1 => bit_set_range v1 (lo + 1) n b

/-- Mark the segments covering a logical block range (`SegmentMap::set`):
asserts `num_blocks` is nonzero, then sets every segment from
`lbn_to_seg(lbn)` to `lbn_to_seg(lbn + lbn_cnt - 1)` inclusive; `none`
models a panic. -/
def SegmentMap.set (m : SegmentMap) (lbn lbn_cnt : Nat) (value : Bool) :
    Option SegmentMap :=
  if m.num_blocks = 0 then none
  else
    let start_seg := m.lbn_to_seg lbn
    let end_seg := m.lbn_to_seg (lbn + lbn_cnt - 1)
    match bit_set_range m.segments start_seg (end_seg + 1 - start_seg)
        value with
    | none => none
    | some s => some { m with segments := s }

/-- Read the segment bit covering a logical block (`SegmentMap::get`). -/
def SegmentMap.get (m : SegmentMap) (lbn : Nat) : Option Bool :=
  m.segments.get? (m.lbn_to_seg lbn)

/-- Merge two segment maps by bitwise OR (`SegmentMap::merge`). -/
def SegmentMap.merge (m : SegmentMap) (other : SegmentMap) : SegmentMap :=
  { m with segments := List.zipWith or m.segments other.segments }

/-- Number of dirty segments (`SegmentMap::count_ones`). -/
def SegmentMap.count_ones (m : SegmentMap) : Nat :=
  m.segments.count true

/-- Number of dirty blocks (`SegmentMap::count_dirty_blks`). -/
def SegmentMap.count_dirty_blks (m : SegmentMap) : Nat :=
  m.count_ones * m.segment_size / m.block_len

/-- Well-formedness of a segment map as produced by `SegmentMap::new` with
positive geometry: the bit vector has exactly `num_segments` bits, the
segment count is the rounded-up quotient, and block length and segment size
are positive. -/
def SegmentMap.wf (m : SegmentMap) : Prop :=
  m.segments.length = m.num_segments ∧
  m.num_segments =
    (m.num_blocks * m.block_len + m.segment_size - 1) / m.segment_size ∧
  0 < m.block_len ∧ 0 < m.segment_size

/-! Helper lemmas on the terminal accounting of the IO state machine. -/

/-- The success check is a no-op while child IOs are outstanding. -/
theorem ok_checked_pos (c : NioCtx) (h : c.in_flight ≠ 0) :
    ok_checked c = (c, []) := by
  simp [ok_checked, h]

/-- With the latch set and no outstanding child IO, the success check
resubmits. -/
theorem ok_checked_zero_latched (c : NioCtx) (h0 : c.in_flight = 0)
    (hm : c.must_fail = true) : ok_checked c = (c, [Action.resubmit]) := by
  simp [ok_checked, retry_checked, h0, hm]

/-- Characterisation of when the success check emits a logical success. -/
theorem ok_checked_success_iff (c : NioCtx) :
    Action.complSuccess ∈ (ok_checked c).2 ↔
      c.in_flight = 0 ∧ c.must_fail = false := by
  by_cases h0 : c.in_flight = 0 <;> by_cases hm : c.must_fail <;>
    simp [ok_checked, retry_checked, h0, hm]

/-- The failure check never emits a logical success. -/
theorem fail_checked_no_success (c : NioCtx) :
    Action.complSuccess ∉ (fail_checked c).2 := by
  by_cases h0 : c.in_flight = 0 <;> simp [fail_checked, h0]

/-- Once the latch is set, `handle_failure` never emits a logical success. -/
theorem handle_failure_no_success (child : String)
    (s : IoCompletionStatus) (c : NioCtx) (hm : c.must_fail = true) :
    Action.complSuccess ∉ (handle_failure child s c).2 := by
  simp only [handle_failure, fail_checked, ok_checked, retry_checked,
    fault_device, channel_fault_device, hm]
  split_ifs <;> simp

/-- Once the latch is set, a child completion never emits a logical
success, whatever the completion status. -/
theorem complete_no_success_of_latched (child : String)
    (s : IoCompletionStatus) (c : NioCtx) (hm : c.must_fail = true) :
    Action.complSuccess ∉ (complete child s c).2 := by
  unfold complete
  by_cases hs : s = IoCompletionStatus.Success
  · rw [if_pos hs, ok_checked]
    by_cases h0 : c.in_flight - 1 = 0 <;>
      simp [retry_checked, h0, hm]
  · rw [if_neg hs]
    exact handle_failure_no_success child s _ rfl

/-- A child completion emits logical success only when it is the last
outstanding child IO, the latch is clear, and the child status is
success. -/
theorem complete_success_conditions (child : String)
    (s : IoCompletionStatus) (c : NioCtx) (h : 0 < c.in_flight)
    (hmem : Action.complSuccess ∈ (complete child s c).2) :
    c.in_flight = 1 ∧ c.must_fail = false ∧
      s = IoCompletionStatus.Success := by
  by_cases hm : c.must_fail = true
  · exact absurd hmem (complete_no_success_of_latched child s c hm)
  · unfold complete at hmem
    by_cases hs : s = IoCompletionStatus.Success
    · rw [if_pos hs] at hmem
      rw [ok_checked_success_iff] at hmem
      have h1 : c.in_flight - 1 = 0 := by simpa using hmem.1
      refine ⟨by omega, by simpa using hmem.2, hs⟩
    · rw [if_neg hs] at hmem
      exact absurd hmem (handle_failure_no_success child s _ rfl)

/-- C10: when a child IO completes with
`NvmeError(Generic(InvalidOpcode))`, `complete` decrements `in_flight` and
sets `status = Failed` and `must_fail = true`, but `handle_failure` returns
before faulting the device and before the terminal checks, so no action at
all is emitted — in particular, when this completion was the last
outstanding child IO (`in_flight = 0` afterwards), no logical completion,
neither success nor failure, is ever emitted for the logical IO. -/
theorem c10_invalid_opcode_swallows_completion (child : String)
    (c : NioCtx) (h : 0 < c.in_flight) :
    (complete child
        (IoCompletionStatus.NvmeError
          (NvmeStatus.Generic GenericStatusCode.InvalidOpcode)) c).1 =
      { c with in_flight := c.in_flight - 1, status := IoStatus.Failed, must_fail := true } ∧
    (complete child
        (IoCompletionStatus.NvmeError
          (NvmeStatus.Generic GenericStatusCode.InvalidOpcode)) c).2 =
      [] ∧
    (c.in_flight = 1 →
      (complete child
          (IoCompletionStatus.NvmeError
            (NvmeStatus.Generic GenericStatusCode.InvalidOpcode)) c).1.in_flight
        = 0) := by
  refine ⟨?_, ?_, ?_⟩ <;> simp [complete, handle_failure]
  intro h1
  omega

/-- Closed witness for C10 at a concrete context with one outstanding
child IO. -/
theorem c10_witness :
    (complete "child0"
        (IoCompletionStatus.NvmeError
          (NvmeStatus.Generic GenericStatusCode.InvalidOpcode))
        { in_flight := 1, status := IoStatus.Success, must_fail := false }).2
      = [] :=
  (c10_invalid_opcode_swallows_completion "child0"
    { in_flight := 1, status := IoStatus.Success, must_fail := false }
    (by decide)).2.1

/-- C3: when a child IO completes with
`NvmeError(Generic(ReservationConflict))`, the nexus self-shutdown is
requested, the child on which the conflict was observed is neither faulted
nor retired, the context is marked failed with the latch set, and the
logical IO is completed as failed exactly when the in-flight counter
reaches zero. -/
theorem c3_reservation_conflict_shutdown (child : String) (c : NioCtx)
    (h : 0 < c.in_flight) :
    Action.selfShutdownRequested ∈
      (complete child
        (IoCompletionStatus.NvmeError
          (NvmeStatus.Generic GenericStatusCode.ReservationConflict)) c).2 ∧
    (∀ s, Action.faultCalled child s ∉
      (complete child
        (IoCompletionStatus.NvmeError
          (NvmeStatus.Generic GenericStatusCode.ReservationConflict)) c).2) ∧
    (∀ r, Action.childFaulted child r ∉
      (complete child
        (IoCompletionStatus.NvmeError
          (NvmeStatus.Generic GenericStatusCode.ReservationConflict)) c).2) ∧
    Action.retireEnqueued child ∉
      (complete child
        (IoCompletionStatus.NvmeError
          (NvmeStatus.Generic GenericStatusCode.ReservationConflict)) c).2 ∧
    (complete child
        (IoCompletionStatus.NvmeError
          (NvmeStatus.Generic GenericStatusCode.ReservationConflict)) c).1 =
      { c with in_flight := c.in_flight - 1, status := IoStatus.Failed, must_fail := true } ∧
    (Action.complFailure ∈
      (complete child
        (IoCompletionStatus.NvmeError
          (NvmeStatus.Generic GenericStatusCode.ReservationConflict)) c).2
      ↔ c.in_flight = 1) := by
  by_cases h1 : c.in_flight - 1 = 0 <;>
    refine ⟨?_, ?_, ?_, ?_, ?_, ?_⟩ <;>
      simp [complete, handle_failure, fail_checked, h1] <;> omega

/-- Closed witness for C3 at a concrete context with one outstanding
child IO. -/
theorem c3_witness :
    Action.selfShutdownRequested ∈
      (complete "replica1"
        (IoCompletionStatus.NvmeError
          (NvmeStatus.Generic GenericStatusCode.ReservationConflict))
        { in_flight := 1, status := IoStatus.Success,
          must_fail := false }).2 :=
  (c3_reservation_conflict_shutdown "replica1"
    { in_flight := 1, status := IoStatus.Success, must_fail := false }
    (by decide)).1

/-- A run of self-shutdown attempts starting with the flag already set
spawns nothing and leaves the flag set. -/
theorem run_shutdown_attempts_true (n : Nat) :
    run_shutdown_attempts n true = (true, []) := by
  induction n with
  | zero => rfl
  | succ m ih =>
    simp [run_shutdown_attempts, try_self_shutdown_nexus, shutdown_cas, ih]

/-- C4: at most one self-shutdown ever fires per nexus — the shutdown task
is spawned only by the invocation whose compare-and-set transitions
`shutdown_requested` from false to true, so in any linearised sequence of
`try_self_shutdown_nexus` invocations on one nexus at most one spawns the
shutdown future, and from a clear flag exactly the first one does. -/
theorem c4_single_self_shutdown :
    (∀ flag, (try_self_shutdown_nexus flag).2 =
      if flag then [] else [Action.selfShutdownRequested]) ∧
    (∀ flag, (try_self_shutdown_nexus flag).1 = true) ∧
    (∀ n, run_shutdown_attempts n true = (true, [])) ∧
    (∀ n, 0 < n →
      run_shutdown_attempts n false =
        (true, [Action.selfShutdownRequested])) ∧
    (∀ n flag,
      (run_shutdown_attempts n flag).2.count Action.selfShutdownRequested
        ≤ 1) := by
  have hstep : ∀ flag, (try_self_shutdown_nexus flag).2 =
      if flag then [] else [Action.selfShutdownRequested] := by
    intro flag
    cases flag <;> simp [try_self_shutdown_nexus, shutdown_cas]
  have hflag : ∀ flag, (try_self_shutdown_nexus flag).1 = true := by
    intro flag
    cases flag <;> simp [try_self_shutdown_nexus, shutdown_cas]
  have hfalse : ∀ n, 0 < n →
      run_shutdown_attempts n false =
        (true, [Action.selfShutdownRequested]) := by
    intro n hn
    cases n with
    | zero => omega
    | succ m =>
      simp [run_shutdown_attempts, try_self_shutdown_nexus, shutdown_cas,
        run_shutdown_attempts_true]
  refine ⟨hstep, hflag, run_shutdown_attempts_true, hfalse, ?_⟩
  intro n flag
  cases flag with
  | true => simp [run_shutdown_attempts_true]
  | false =>
    cases n with
    | zero => simp [run_shutdown_attempts]
    | succ m => simp [hfalse (m + 1) (Nat.succ_pos m)]

/-- Closed witness for C4: three racing attempts on one nexus spawn
exactly one shutdown task. -/
theorem c4_witness :
    run_shutdown_attempts 3 false =
      (true, [Action.selfShutdownRequested]) :=
  c4_single_self_shutdown.2.2.2.1 3 (by decide)

/-- C8: every child submission of the data path is issued at the logical
block offset shifted by `data_ent_offset`; in particular an IO at logical
offset zero reaches the replica at offset `data_ent_offset`, and no child
request ever starts below `data_ent_offset`, so the metadata prefix is
never addressed. -/
theorem c8_child_offset_shift (b : BioDesc) :
    (submit_read b).offset_blocks = b.offset + b.data_ent_offset ∧
    (submit_write b).offset_blocks = b.offset + b.data_ent_offset ∧
    (submit_unmap b).offset_blocks = b.offset + b.data_ent_offset ∧
    (submit_write_zeroes b).offset_blocks = b.offset + b.data_ent_offset ∧
    (b.offset = 0 →
      (submit_read b).offset_blocks = b.data_ent_offset ∧
      (submit_write b).offset_blocks = b.data_ent_offset ∧
      (submit_unmap b).offset_blocks = b.data_ent_offset ∧
      (submit_write_zeroes b).offset_blocks = b.data_ent_offset) ∧
    b.data_ent_offset ≤ (submit_read b).offset_blocks ∧
    b.data_ent_offset ≤ (submit_write b).offset_blocks ∧
    b.data_ent_offset ≤ (submit_unmap b).offset_blocks ∧
    b.data_ent_offset ≤ (submit_write_zeroes b).offset_blocks := by
  simp [submit_read, submit_write, submit_unmap, submit_write_zeroes]

/-- Closed witness for C8: a write of eight blocks at logical offset zero
with a data-entry offset of ten reaches the replica at block ten. -/
theorem c8_witness :
    (submit_write { offset := 0, num_blocks := 8, data_ent_offset := 10
      }).offset_blocks = 10 :=
  ((c8_child_offset_shift
    { offset := 0, num_blocks := 8, data_ent_offset := 10 }).2.2.2.2.1
    rfl).2.1

/-- C9: the submission-failure direction reported to fault handling is the
opposite of the failing path — a failing child read submission faults the
chosen device with `IoSubmissionError(Write)`, while a failing write-class
child submission faults the offending device with
`IoSubmissionError(Read)`. -/
theorem c9_submission_fault_direction :
    (∀ ch (c : NioCtx) r ch1 e, select_reader ch = some (r, ch1) →
      r.submit = some e →
      Action.faultCalled r.name
        (IoCompletionStatus.IoSubmissionError IoSubmissionFailure.Write) ∈
        (do_readv_one ch c).2.2.1) ∧
    (∀ ch (c : NioCtx) n dev e,
      for_each_writer ch.writers = (n, some (dev, e)) →
      Action.faultCalled dev
        (IoCompletionStatus.IoSubmissionError IoSubmissionFailure.Read) ∈
        (submit_all ch c).2.2.1) := by
  constructor
  · intro ch c r ch1 e hsel hsub
    simp [do_readv_one, hsel, hsub, fault_device, channel_fault_device]
  · intro ch c n dev e hfw
    by_cases hn : n = 0 <;>
      simp [submit_all, hfw, hn, fault_device, channel_fault_device]

/-- Closed witness for C9: a two-reader channel whose round-robin choice
fails at submission faults that reader with the write direction tag. -/
theorem c9_witness :
    Action.faultCalled "r1"
      (IoCompletionStatus.IoSubmissionError IoSubmissionFailure.Write) ∈
      (do_readv_one
        { readers := [⟨"r1", some (CoreError.ReadDispatch 6)⟩, ⟨"r2", none⟩],
          prev_reader_idx := 1, writers := [] } new_ctx).2.2.1 :=
  c9_submission_fault_direction.1
    { readers := [⟨"r1", some (CoreError.ReadDispatch 6)⟩, ⟨"r2", none⟩],
      prev_reader_idx := 1, writers := [] }
    new_ctx
    ⟨"r1", some (CoreError.ReadDispatch 6)⟩
    { readers := [⟨"r1", some (CoreError.ReadDispatch 6)⟩, ⟨"r2", none⟩],
      prev_reader_idx := 0, writers := [] }
    (CoreError.ReadDispatch 6) (by decide) (by decide)

/-- The write-class fan-out never emits a logical success synchronously:
`ok_checked` is reached there only with a positive in-flight counter. -/
theorem submit_all_no_success (ch : NexusChannel) (c : NioCtx) :
    Action.complSuccess ∉ (submit_all ch c).2.2.1 := by
  rcases hfw : for_each_writer ch.writers with ⟨n, f⟩
  rcases f with _ | ⟨de⟩ <;> by_cases hn : n = 0 <;>
    by_cases h0 : c.in_flight = 0 <;>
    simp [submit_all, hfw, hn, h0, fault_device, channel_fault_device,
      fail_checked, ok_checked_pos, ok_checked, retry_checked]

/-- C2: once `must_fail` has been latched in the context of a logical IO,
that IO instance is never completed with logical success — the success
emission is reached exactly when `in_flight = 0` and `must_fail` is false;
with `in_flight = 0` and `must_fail` set the IO is resubmitted from
scratch instead; a child completion that emits success implies the latch
was clear at the emission check; and the write fan-out itself never emits
success. -/
theorem c2_must_fail_never_success :
    (∀ c : NioCtx, Action.complSuccess ∈ (ok_checked c).2 ↔
      c.in_flight = 0 ∧ c.must_fail = false) ∧
    (∀ c : NioCtx, c.in_flight = 0 → c.must_fail = true →
      ok_checked c = (c, [Action.resubmit])) ∧
    (∀ (child : String) (s : IoCompletionStatus) (c : NioCtx),
      c.must_fail = true →
      Action.complSuccess ∉ (complete child s c).2) ∧
    (∀ (child : String) (s : IoCompletionStatus) (c : NioCtx),
      0 < c.in_flight →
      Action.complSuccess ∈ (complete child s c).2 →
      c.in_flight = 1 ∧ c.must_fail = false ∧
        s = IoCompletionStatus.Success) ∧
    (∀ (ch : NexusChannel) (c : NioCtx),
      Action.complSuccess ∉ (submit_all ch c).2.2.1) :=
  ⟨ok_checked_success_iff, ok_checked_zero_latched,
    complete_no_success_of_latched, complete_success_conditions,
    submit_all_no_success⟩

/-- Closed witness for C2: a last successful child completion under the
latch emits no success, and a clear-latch last completion does. -/
theorem c2_witness :
    Action.complSuccess ∉
      (complete "child0" IoCompletionStatus.Success
        { in_flight := 1, status := IoStatus.Success,
          must_fail := true }).2 ∧
    (Action.complSuccess ∈
      (ok_checked { in_flight := 0, status := IoStatus.Success, must_fail := false }).2 ↔
      (0 : Nat) = 0 ∧ (false : Bool) = false) :=
  ⟨c2_must_fail_never_success.2.2.1 "child0" IoCompletionStatus.Success
      { in_flight := 1, status := IoStatus.Success, must_fail := true }
      rfl,
    c2_must_fail_never_success.1
      { in_flight := 0, status := IoStatus.Success, must_fail := false }⟩

/-- C1 counterexample: three writers where the submissions of the first
two are accepted and the third returns ENXIO at submission, and both
outstanding child completions later succeed. The failing device is faulted
and scheduled for retire and the IO waits for both completions, but the
logical status emitted is not Failed: on the last completion the IO is
resubmitted from scratch (the latch routes `ok_checked` into
`retry_checked`), and no logical failure is ever emitted in this run. -/
theorem c1_counterexample :
    (submit_all
        { readers := [], prev_reader_idx := 0,
          writers := [⟨"w1", none⟩, ⟨"w2", none⟩,
            ⟨"w3", some (CoreError.WriteDispatch 6)⟩] }
        new_ctx).2.1.in_flight = 2 ∧
    (submit_all
        { readers := [], prev_reader_idx := 0,
          writers := [⟨"w1", none⟩, ⟨"w2", none⟩,
            ⟨"w3", some (CoreError.WriteDispatch 6)⟩] }
        new_ctx).2.1.must_fail = true ∧
    (complete "w2" IoCompletionStatus.Success
        (complete "w1" IoCompletionStatus.Success
          (submit_all
            { readers := [], prev_reader_idx := 0,
              writers := [⟨"w1", none⟩, ⟨"w2", none⟩,
                ⟨"w3", some (CoreError.WriteDispatch 6)⟩] }
            new_ctx).2.1).1).2 = [Action.resubmit] ∧
    Action.complFailure ∉
      (complete "w2" IoCompletionStatus.Success
        (complete "w1" IoCompletionStatus.Success
          (submit_all
            { readers := [], prev_reader_idx := 0,
              writers := [⟨"w1", none⟩, ⟨"w2", none⟩,
                ⟨"w3", some (CoreError.WriteDispatch 6)⟩] }
            new_ctx).2.1).1).2 := by
  decide

/-- C1 as amended: for a write-class IO over three writers where the first
two child submissions are accepted and the last returns an error, the
failing device is faulted, a RetireDevice command is enqueued for it and it
is disconnected, `must_fail` is latched with two child IOs in flight, no
logical completion is emitted before the two outstanding child completions
arrive, and when the second (last) successful completion arrives the IO is
resubmitted from scratch rather than completed — in particular it is not
completed as Failed. -/
theorem c1_amended_partial_submission_resubmits (w1 w2 w3 : String)
    (e : CoreError) :
    (submit_all
        { readers := [], prev_reader_idx := 0,
          writers := [⟨w1, none⟩, ⟨w2, none⟩, ⟨w3, some e⟩] }
        new_ctx).2.1 =
      { in_flight := 2, status := IoStatus.Success, must_fail := true } ∧
    (submit_all
        { readers := [], prev_reader_idx := 0,
          writers := [⟨w1, none⟩, ⟨w2, none⟩, ⟨w3, some e⟩] }
        new_ctx).2.2.1 =
      Action.disconnected w3 ::
        fault_device w3
          (IoCompletionStatus.IoSubmissionError IoSubmissionFailure.Read) ∧
    Action.retireEnqueued w3 ∈
      (submit_all
        { readers := [], prev_reader_idx := 0,
          writers := [⟨w1, none⟩, ⟨w2, none⟩, ⟨w3, some e⟩] }
        new_ctx).2.2.1 ∧
    Action.complSuccess ∉
      (submit_all
        { readers := [], prev_reader_idx := 0,
          writers := [⟨w1, none⟩, ⟨w2, none⟩, ⟨w3, some e⟩] }
        new_ctx).2.2.1 ∧
    Action.complFailure ∉
      (submit_all
        { readers := [], prev_reader_idx := 0,
          writers := [⟨w1, none⟩, ⟨w2, none⟩, ⟨w3, some e⟩] }
        new_ctx).2.2.1 ∧
    (complete w1 IoCompletionStatus.Success
      { in_flight := 2, status := IoStatus.Success, must_fail := true }) =
      ({ in_flight := 1, status := IoStatus.Success, must_fail := true },
        []) ∧
    (complete w2 IoCompletionStatus.Success
      { in_flight := 1, status := IoStatus.Success, must_fail := true }) =
      ({ in_flight := 0, status := IoStatus.Success, must_fail := true },
        [Action.resubmit]) := by
  refine ⟨?_, ?_, ?_, ?_, ?_, ?_, ?_⟩ <;>
    simp [submit_all, for_each_writer, fault_device, channel_fault_device,
      fault_reason_of, ok_checked, retry_checked, fail_checked, complete,
      new_ctx]

/-- Pointwise OR of bit vectors is associative, truncation included. -/
theorem zipWith_or_assoc : ∀ (a b c : List Bool),
    List.zipWith or (List.zipWith or a b) c =
      List.zipWith or a (List.zipWith or b c)
  | [], _, _ => rfl
  | _ :: _, [], _ => rfl
  | _ :: _, _ :: _, [] => rfl
  | x :: xs, y :: ys, z :: zs => by
    simp only [List.zipWith]
    exact congrArg₂ List.cons (Bool.or_assoc x y z)
      (zipWith_or_assoc xs ys zs)

/-- C7: segment-map merge (bitwise OR) is commutative and associative —
for maps of matching dimensions the merged bit vectors agree in both
orders (and the whole maps are equal), and merging is associative. -/
theorem c7_merge_comm_assoc (a b c : SegmentMap)
    (hd : a.num_segments = b.num_segments ∧ a.num_blocks = b.num_blocks ∧
      a.block_len = b.block_len ∧ a.segment_size = b.segment_size) :
    (a.merge b).segments = (b.merge a).segments ∧
    a.merge b = b.merge a ∧
    (a.merge b).merge c = a.merge (b.merge c) := by
  obtain ⟨h1, h2, h3, h4⟩ := hd
  refine ⟨?_, ?_, ?_⟩
  · simpa [SegmentMap.merge] using
      List.zipWith_comm_of_comm or Bool.or_comm a.segments b.segments
  · cases a
    cases b
    simp_all [SegmentMap.merge]
    exact List.zipWith_comm_of_comm or Bool.or_comm _ _
  · simp [SegmentMap.merge, zipWith_or_assoc]

/-- Closed witness for C7 at two concrete matching maps. -/
theorem c7_witness :
    SegmentMap.merge ⟨[true, false], 2, 4, 1, 2⟩ ⟨[false, true], 2, 4, 1, 2⟩
      = SegmentMap.merge ⟨[false, true], 2, 4, 1, 2⟩
          ⟨[true, false], 2, 4, 1, 2⟩ :=
  (c7_merge_comm_assoc ⟨[true, false], 2, 4, 1, 2⟩
    ⟨[false, true], 2, 4, 1, 2⟩ ⟨[false, false], 2, 4, 1, 2⟩
    ⟨rfl, rfl, rfl, rfl⟩).2.1

/-- Setting an in-bounds run of bits succeeds and changes exactly the bits
of the run. -/
theorem bit_set_range_spec (b : Bool) :
    ∀ (cnt : Nat) (v : List Bool) (lo : Nat), lo + cnt ≤ v.length →
    ∃ v', bit_set_range v lo cnt b = some v' ∧
      v'.length = v.length ∧
      ∀ i, v'.get? i =
        if lo ≤ i ∧ i < lo + cnt then some b else v.get? i := by
  intro cnt
  induction cnt with
  | zero =>
    intro v lo hle
    refine ⟨v, rfl, rfl, ?_⟩
    intro i
    rw [if_neg (by omega)]
  | succ n ih =>
    intro v lo hle
    have hlo : lo < v.length := by omega
    obtain ⟨v', hv', hlen, hchar⟩ :=
      ih (v.set lo b) (lo + 1) (by simp; omega)
    refine ⟨v', ?_, by simp [hlen], ?_⟩
    · unfold bit_set_range bit_set
      rw [if_pos hlo]
      exact hv'
    · intro i
      rw [hchar i]
      by_cases h1 : lo + 1 ≤ i ∧ i < lo + 1 + n
      · rw [if_pos h1, if_pos (by omega)]
      · rw [if_neg h1]
        by_cases h2 : lo ≤ i ∧ i < lo + (n + 1)
        · have hi : i = lo := by omega
          subst hi
          rw [if_pos h2]
          exact List.get?_set_eq_of_lt b hlo
        · rw [if_neg h2]
          exact List.get?_set_ne b v (by omega)

/-- The segment of any logical block below `num_blocks` lies inside the
rounded-up segment count. -/
theorem seg_lt_num_segments (n B s lbn : Nat) (hn : 0 < n) (hB : 0 < B)
    (hs : 0 < s) (hlbn : lbn ≤ n - 1) :
    lbn * B / s < (n * B + s - 1) / s := by
  have h1 : lbn * B ≤ (n - 1) * B := Nat.mul_le_mul_right B hlbn
  have h2 : (n - 1) * B = n * B - 1 * B := Nat.sub_mul n 1 B
  have h3 : 0 < n * B := Nat.mul_pos hn hB
  have h4 : lbn * B ≤ n * B - 1 := by omega
  have h5 : lbn * B / s ≤ (n * B - 1) / s := Nat.div_le_div_right h4
  have h6 : n * B + s - 1 = (n * B - 1) + s := by omega
  rw [h6, Nat.add_div_right _ hs]
  omega

/-- Block-to-segment conversion is monotone. -/
theorem lbn_to_seg_mono (m : SegmentMap) {a b : Nat} (h : a ≤ b) :
    m.lbn_to_seg a ≤ m.lbn_to_seg b :=
  Nat.div_le_div_right (Nat.mul_le_mul_right _ h)

/-- C6: for a well-formed segment map with a nonzero block count, a call
`set(lbn, cnt, value)` with `cnt ≥ 1` and `lbn + cnt ≤ num_blocks`
succeeds (no panic) and sets exactly the segments of the inclusive index
range from `lbn_to_seg(lbn)` to `lbn_to_seg(lbn + cnt - 1)` to the value,
leaving every other bit unchanged; in particular `set(0, 1)` marks exactly
segment zero, and a range crossing one segment boundary marks exactly the
two adjacent segments. -/
theorem c6_set_marks_exact_segment_range (m : SegmentMap)
    (lbn cnt : Nat) (v : Bool) (hwf : m.wf) (hnb : 0 < m.num_blocks)
    (hcnt : 1 ≤ cnt) (hle : lbn + cnt ≤ m.num_blocks) :
    ∃ m', m.set lbn cnt v = some m' ∧
      m'.segments.length = m.segments.length ∧
      m'.num_segments = m.num_segments ∧
      (∀ i, m'.segments.get? i =
        if m.lbn_to_seg lbn ≤ i ∧ i ≤ m.lbn_to_seg (lbn + cnt - 1)
        then some v else m.segments.get? i) ∧
      (lbn = 0 ∧ cnt = 1 →
        ∀ i, m'.segments.get? i =
          if i = 0 then some v else m.segments.get? i) ∧
      (m.lbn_to_seg (lbn + cnt - 1) = m.lbn_to_seg lbn + 1 →
        ∀ i, m'.segments.get? i =
          if i = m.lbn_to_seg lbn ∨ i = m.lbn_to_seg lbn + 1
          then some v else m.segments.get? i) := by
  obtain ⟨hlen, hns, hB, hs⟩ := hwf
  have hse : m.lbn_to_seg lbn ≤ m.lbn_to_seg (lbn + cnt - 1) :=
    lbn_to_seg_mono m (by omega)
  have hend : m.lbn_to_seg (lbn + cnt - 1) < m.num_segments := by
    rw [hns]
    exact seg_lt_num_segments m.num_blocks m.block_len m.segment_size
      (lbn + cnt - 1) hnb hB hs (by omega)
  obtain ⟨v', hv', hvlen, hchar⟩ :=
    bit_set_range_spec v
      (m.lbn_to_seg (lbn + cnt - 1) + 1 - m.lbn_to_seg lbn)
      m.segments (m.lbn_to_seg lbn) (by omega)
  have hgen : ∀ i, v'.get? i =
      if m.lbn_to_seg lbn ≤ i ∧ i ≤ m.lbn_to_seg (lbn + cnt - 1)
      then some v else m.segments.get? i := by
    intro i
    rw [hchar i]
    by_cases hc : m.lbn_to_seg lbn ≤ i ∧ i ≤ m.lbn_to_seg (lbn + cnt - 1)
    · rw [if_pos (by omega), if_pos hc]
    · rw [if_neg (by omega), if_neg hc]
  refine ⟨{ m with segments := v' }, ?_, hvlen, rfl, hgen, ?_, ?_⟩
  · unfold SegmentMap.set
    rw [if_neg (by omega)]
    simp only [hv']
  · rintro ⟨h0, h1⟩
    subst h0
    subst h1
    intro i
    have hz : m.lbn_to_seg 0 = 0 := by
      simp [SegmentMap.lbn_to_seg]
    rw [hgen i]
    by_cases hi : i = 0
    · subst hi
      rw [if_pos (by simp [hz]), if_pos rfl]
    · rw [if_neg (by simp [hz]; omega), if_neg hi]
  · intro hcross
    intro i
    rw [hgen i, hcross]
    by_cases hi : i = m.lbn_to_seg lbn ∨ i = m.lbn_to_seg lbn + 1
    · rw [if_pos (by omega), if_pos hi]
    · rw [if_neg (by omega), if_neg hi]

/-- Closed witness for C6: on a fresh map of sixteen 512-byte blocks with
1024-byte segments, `set(0, 1, true)` succeeds and marks exactly segment
zero. -/
theorem c6_witness :
    ∃ m', (SegmentMap.new 16 512 1024).set 0 1 true = some m' ∧
      m'.segments.length = (SegmentMap.new 16 512 1024).segments.length ∧
      m'.num_segments = (SegmentMap.new 16 512 1024).num_segments ∧
      (∀ i, m'.segments.get? i =
        if (SegmentMap.new 16 512 1024).lbn_to_seg 0 ≤ i ∧
            i ≤ (SegmentMap.new 16 512 1024).lbn_to_seg (0 + 1 - 1)
        then some true
        else (SegmentMap.new 16 512 1024).segments.get? i) ∧
      ((0 : Nat) = 0 ∧ (1 : Nat) = 1 →
        ∀ i, m'.segments.get? i =
          if i = 0 then some true
          else (SegmentMap.new 16 512 1024).segments.get? i) ∧
      ((SegmentMap.new 16 512 1024).lbn_to_seg (0 + 1 - 1) =
          (SegmentMap.new 16 512 1024).lbn_to_seg 0 + 1 →
        ∀ i, m'.segments.get? i =
          if i = (SegmentMap.new 16 512 1024).lbn_to_seg 0 ∨
              i = (SegmentMap.new 16 512 1024).lbn_to_seg 0 + 1
          then some true
          else (SegmentMap.new 16 512 1024).segments.get? i) :=
  c6_set_marks_exact_segment_range (SegmentMap.new 16 512 1024) 0 1 true
    (by unfold SegmentMap.wf SegmentMap.new; decide)
    (by decide) (by decide) (by decide)

/-- Recogniser for device-fault calls in an action trace. -/
def is_fault_call : Action → Bool
  | Action.faultCalled _ _ => true
  | _ => false

/-- A reader whose submission call fails with a genuine dispatch error
(not the no-devices sentinel). -/
def reader_fails_hard (r : Reader) : Prop :=
  r.submit ≠ none ∧ r.submit ≠ some CoreError.NoDevicesAvailable

instance : DecidablePred reader_fails_hard := fun r =>
  decidable_of_iff
    (r.submit ≠ none ∧ r.submit ≠ some CoreError.NoDevicesAvailable)
    Iff.rfl

/-- One fault call is recorded per faulted device. -/
theorem countP_fault_device (d : String) (s : IoCompletionStatus) :
    (fault_device d s).countP is_fault_call = 1 := by
  simp [fault_device, channel_fault_device, is_fault_call,
    List.countP_cons]

/-- With a nonempty reader vector the round-robin selection picks the
reader at the successor index modulo the reader count. -/
theorem select_reader_some (ch : NexusChannel)
    (hlen : 0 < ch.readers.length) :
    ∃ (hb : (ch.prev_reader_idx + 1) % ch.readers.length <
        ch.readers.length),
      select_reader ch =
        some (ch.readers.get
          ⟨(ch.prev_reader_idx + 1) % ch.readers.length, hb⟩,
          { ch with prev_reader_idx :=
            (ch.prev_reader_idx + 1) % ch.readers.length }) := by
  refine ⟨Nat.mod_lt _ hlen, ?_⟩
  unfold select_reader
  rw [dif_pos hlen]

/-- A single read attempt on a channel whose readers all fail hard: the
attempt faults the chosen device once, emits no completion, keeps the
context, only advances the round-robin index, and propagates a genuine
error. -/
theorem do_readv_one_all_fail (ch : NexusChannel) (c : NioCtx)
    (hall : ∀ r ∈ ch.readers, reader_fails_hard r)
    (hlen : 0 < ch.readers.length) :
    ∃ j a e, do_readv_one ch c =
      ({ ch with prev_reader_idx := j }, c, a, some e) ∧
      a.countP is_fault_call = 1 ∧
      Action.complFailure ∉ a ∧ Action.complSuccess ∉ a ∧
      Action.resubmit ∉ a ∧
      e ≠ CoreError.NoDevicesAvailable := by
  obtain ⟨hb, hsel⟩ := select_reader_some ch hlen
  have hrmem :
      ch.readers.get
        ⟨(ch.prev_reader_idx + 1) % ch.readers.length, hb⟩ ∈ ch.readers :=
    List.get_mem _ _ _
  obtain ⟨hne, hnd⟩ := hall _ hrmem
  rcases hsub : (ch.readers.get
      ⟨(ch.prev_reader_idx + 1) % ch.readers.length, hb⟩).submit with _ | e
  · exact absurd hsub hne
  · refine ⟨(ch.prev_reader_idx + 1) % ch.readers.length,
      fault_device
        (ch.readers.get
          ⟨(ch.prev_reader_idx + 1) % ch.readers.length, hb⟩).name
        (IoCompletionStatus.IoSubmissionError IoSubmissionFailure.Write),
      e, ?_, countP_fault_device _ _, ?_, ?_, ?_, ?_⟩
    · unfold do_readv_one
      rw [hsel]
      simp only [List.get_eq_getElem] at hsub
      simp [hsub]
    · simp [fault_device, channel_fault_device]
    · simp [fault_device, channel_fault_device]
    · simp [fault_device, channel_fault_device]
    · intro hcontra
      exact hnd (by rw [hsub, hcontra])

/-- The resubmission loop on a channel whose readers all fail hard records
exactly one fault per attempt (the fuel plus one attempts in total), never
emits a completion, keeps the context, and ends with a genuine error. -/
theorem readv_retry_loop_all_fail :
    ∀ (k : Nat) (ch : NexusChannel) (c : NioCtx),
    (∀ r ∈ ch.readers, reader_fails_hard r) → 0 < ch.readers.length →
    ∃ j a e, readv_retry_loop (k + 1) ch c =
      ({ ch with prev_reader_idx := j }, c, a, some e) ∧
      a.countP is_fault_call = k + 1 ∧
      Action.complFailure ∉ a ∧ Action.complSuccess ∉ a ∧
      Action.resubmit ∉ a ∧
      e ≠ CoreError.NoDevicesAvailable := by
  intro k
  induction k with
  | zero =>
    intro ch c hall hlen
    obtain ⟨j, a, e, heq, h1, h2, h3, h4, h5⟩ :=
      do_readv_one_all_fail ch c hall hlen
    exact ⟨j, a, e, by rw [readv_retry_loop]; exact heq, h1, h2, h3, h4, h5⟩
  | succ n ih =>
    intro ch c hall hlen
    obtain ⟨j, a, e, heq, hc1, hf1, hs1, hr1, hnd1⟩ :=
      do_readv_one_all_fail ch c hall hlen
    obtain ⟨j2, a2, e2, heq2, hc2, hf2, hs2, hr2, hnd2⟩ :=
      ih { ch with prev_reader_idx := j } c hall hlen
    refine ⟨j2, a ++ a2, e2, ?_, ?_, ?_, ?_, ?_, hnd2⟩
    · show readv_retry_loop (Nat.succ (Nat.succ n)) ch c = _
      rw [readv_retry_loop, heq]
      simp only [heq2]
    · rw [List.countP_append, hc1, hc2]
      omega
    · simp [hf1, hf2]
    · simp [hs1, hs2]
    · simp [hr1, hr2]

/-- The failover read path on a channel whose readers all fail hard:
every reader is attempted (one fault call per reader), the context is
unchanged, the run ends with a logical failure emission and a propagated
error. -/
theorem do_readv_all_fail (ch : NexusChannel) (c : NioCtx)
    (hall : ∀ r ∈ ch.readers, reader_fails_hard r)
    (hlen : 0 < ch.readers.length) :
    ∃ ch2 a e, do_readv ch c = (ch2, c, a, some e) ∧
      a.countP is_fault_call = ch.readers.length ∧
      Action.complFailure ∈ a := by
  obtain ⟨j, a, e, heq, hc, hf, hs, hr, hnd⟩ :=
    do_readv_one_all_fail ch c hall hlen
  by_cases hle1 : ch.readers.length ≤ 1
  · refine ⟨{ ch with prev_reader_idx := j },
      a ++ [Action.complFailure], e, ?_, ?_, by simp⟩
    · unfold do_readv
      rw [heq]
      rcases e with _ | k | k | k
      · exact absurd rfl hnd
      all_goals simp [hle1]
    · rw [List.countP_append, hc]
      have h0 : List.countP is_fault_call [Action.complFailure] = 0 := by
        decide
      omega
  · obtain ⟨j2, a2, e2, heq2, hc2, hf2, hs2, hr2, hnd2⟩ :=
      readv_retry_loop_all_fail (ch.readers.length - 2)
        { ch with prev_reader_idx := j } c hall hlen
    refine ⟨{ ch with prev_reader_idx := j2 },
      a ++ a2 ++ [Action.complFailure], e2, ?_, ?_, by simp⟩
    · unfold do_readv
      rw [heq]
      have hfuel : ch.readers.length - 1 = ch.readers.length - 2 + 1 := by
        omega
      rcases e with _ | k | k | k
      · exact absurd rfl hnd
      all_goals simp [hle1, hfuel, heq2]
    · rw [List.countP_append, List.countP_append, hc, hc2]
      have h0 : List.countP is_fault_call [Action.complFailure] = 0 := by
        decide
      omega

/-- C5: for a read IO, (i) with no reader available the logical IO fails
immediately with the no-devices error, emitting exactly one failure and no
fault and no retry; (ii) when submissions keep failing while readers
remain, every attempt faults the chosen device and the read is retried,
with the working counter seeded from the reader count, and the logical IO
is failed exactly when all readers have been attempted (one fault call per
reader); (iii) when the first reader fails at submission and a second
reader remains and accepts, the failed device is faulted once, the read is
resubmitted to the next reader and succeeds, and no logical failure is
emitted. -/
theorem c5_read_failover :
    (∀ (c : NioCtx) (i : Nat) (w : List Writer),
      do_readv { readers := [], prev_reader_idx := i, writers := w } c =
        ({ readers := [], prev_reader_idx := i, writers := w }, c,
          [Action.complFailure], some CoreError.NoDevicesAvailable)) ∧
    (∀ (ch : NexusChannel) (c : NioCtx),
      (∀ r ∈ ch.readers, reader_fails_hard r) → 0 < ch.readers.length →
      (do_readv ch c).2.2.1.countP is_fault_call = ch.readers.length ∧
      Action.complFailure ∈ (do_readv ch c).2.2.1 ∧
      (do_readv ch c).2.2.2 ≠ none ∧
      (do_readv ch c).2.1 = c) ∧
    (∀ (n1 n2 : String) (e : CoreError) (c : NioCtx),
      e ≠ CoreError.NoDevicesAvailable →
      (do_readv
        { readers := [⟨n1, some e⟩, ⟨n2, none⟩],
          prev_reader_idx := 1, writers := [] } c).2.2.2 = none ∧
      (do_readv
        { readers := [⟨n1, some e⟩, ⟨n2, none⟩],
          prev_reader_idx := 1, writers := [] } c).2.1 =
        { c with in_flight := 1 } ∧
      (do_readv
        { readers := [⟨n1, some e⟩, ⟨n2, none⟩],
          prev_reader_idx := 1, writers := [] } c).2.2.1.countP
        is_fault_call = 1 ∧
      Action.faultCalled n1
        (IoCompletionStatus.IoSubmissionError IoSubmissionFailure.Write) ∈
        (do_readv
        { readers := [⟨n1, some e⟩, ⟨n2, none⟩],
          prev_reader_idx := 1, writers := [] } c).2.2.1 ∧
      Action.complFailure ∉
        (do_readv
        { readers := [⟨n1, some e⟩, ⟨n2, none⟩],
          prev_reader_idx := 1, writers := [] } c).2.2.1) := by
  refine ⟨?_, ?_, ?_⟩
  · intro c i w
    rfl
  · intro ch c hall hlen
    obtain ⟨ch2, a, e, hdo, hcount, hmem⟩ :=
      do_readv_all_fail ch c hall hlen
    rw [hdo]
    exact ⟨hcount, hmem, by simp, rfl⟩
  · intro n1 n2 e c he
    rcases e with _ | k | k | k
    · exact absurd rfl he
    all_goals
      simp [do_readv, do_readv_one, select_reader, readv_retry_loop,
        fault_device, channel_fault_device, fault_reason_of,
        is_fault_call, List.countP_cons]

/-- Closed witness for C5: on a single-reader channel whose reader fails
at submission, the read path faults that reader once, emits the logical
failure, propagates an error, and leaves the context unchanged. -/
theorem c5_witness :
    (do_readv
      { readers := [⟨"r1", some (CoreError.ReadDispatch 6)⟩],
        prev_reader_idx := 0, writers := [] } new_ctx).2.2.1.countP
      is_fault_call = 1 ∧
    Action.complFailure ∈
      (do_readv
      { readers := [⟨"r1", some (CoreError.ReadDispatch 6)⟩],
        prev_reader_idx := 0, writers := [] } new_ctx).2.2.1 ∧
    (do_readv
      { readers := [⟨"r1", some (CoreError.ReadDispatch 6)⟩],
        prev_reader_idx := 0, writers := [] } new_ctx).2.2.2 ≠ none ∧
    (do_readv
      { readers := [⟨"r1", some (CoreError.ReadDispatch 6)⟩],
        prev_reader_idx := 0, writers := [] } new_ctx).2.1 = new_ctx :=
  c5_read_failover.2.1
    { readers := [⟨"r1", some (CoreError.ReadDispatch 6)⟩],
      prev_reader_idx := 0, writers := [] }
    new_ctx (by decide) (by decide)

end Mayastor
